import Mathlib

/-!
Verification of the PyCOOL model-specification layer
(src/models/chaotic.py and src/models/oscillon.py).

Each Python `Model.__init__` is a straight-line sequence of attribute
assignments followed by a conditional normalization block keyed on the
curvature-perturbation flag `zetaQ`.  We embed the attribute record as a
Lean structure, each preset's literal assignments as a structure value,
and the trailing `if self.zetaQ == True:` block as a function on records.
Real-valued physical quantities are embedded in `ℝ` (the two presets use
`sqrt` and `π`, so the records are noncomputable); integer-valued
quantities are `ℕ`, booleans are `Bool`, and symbolic potential terms are
kept as the literal strings of the source.
-/

/-- State of the coefficient-placeholder scanner over a potential-term
string: scanning plain text, having just read the letter C, or inside
the digit run of a placeholder with accumulated value `n`. -/
inductive ScanState where
  | plain : ScanState
  | afterC : ScanState
  | digits : Nat → ScanState
deriving DecidableEq

/-- Scan a character list for coefficient placeholders `C1, C2, ...`
(the letter C followed by a maximal nonempty digit run, as used in the
`V_list` and `V_int` expression strings), returning the list of
placeholder indices in order of occurrence. -/
def scanPlaceholders : ScanState → List Char → List Nat
  | ScanState.plain, [] => []
  | ScanState.afterC, [] => []
  | ScanState.digits k, [] => [k]
  | ScanState.plain, c :: cs =>
      if c = 'C' then scanPlaceholders ScanState.afterC cs
      else scanPlaceholders ScanState.plain cs
  | ScanState.afterC, c :: cs =>
      if c.isDigit then scanPlaceholders (ScanState.digits (c.toNat - 48)) cs
      else if c = 'C' then scanPlaceholders ScanState.afterC cs
      else scanPlaceholders ScanState.plain cs
  | ScanState.digits k, c :: cs =>
      if c.isDigit then scanPlaceholders (ScanState.digits (10 * k + (c.toNat - 48))) cs
      else if c = 'C' then k :: scanPlaceholders ScanState.afterC cs
      else k :: scanPlaceholders ScanState.plain cs

/-- Coefficient-placeholder indices referenced by one expression string. -/
def placeholders (s : String) : List Nat :=
  scanPlaceholders ScanState.plain s.toList

/-- Append an element to an accumulator list unless already present. -/
def insertNew (l : List Nat) (x : Nat) : List Nat :=
  if x ∈ l then l else l ++ [x]

/-- Distinct coefficient-placeholder indices referenced across a list of
expression strings, in order of first occurrence. -/
def distinctPlaceholders (ss : List String) : List Nat :=
  ((ss.map placeholders).flatten).foldl insertNew []

/-- Attribute record built by `Model.__init__`.  Field names and order
follow src/models/chaotic.py; attributes present in only one of the two
preset files (`lamb` in oscillon; `f20`, `df2_dt0`, `q` in chaotic) are
`Option`-valued, `none` meaning the attribute is never assigned. -/
structure Model where
  model_name : String
  mpl : ℝ
  MPl : ℝ
  m : ℝ
  m2f1 : ℝ
  m2f2 : ℝ
  m2_fields : List ℝ
  lamb : Option ℝ
  g2 : ℝ
  f10 : ℝ
  f20 : Option ℝ
  df1_dt0 : ℝ
  df2_dt0 : Option ℝ
  fields0 : List ℝ
  pis0 : List ℝ
  q : Option ℝ
  V_list : List String
  V_int : List String
  tmp_var : List ℝ
  C_coeff : List ℝ
  D_coeff : List ℝ
  power_list : List String
  rho_r0 : ℝ
  rho_m0 : ℝ
  dtau : ℝ
  dtau_hom : ℝ
  adaptQ : Bool
  L : ℝ
  n : ℕ
  a_in : ℝ
  a_limit : ℕ
  t_in : ℝ
  t_fin : ℝ
  t_fin_hom : ℝ
  lin_evo : Bool
  homogenQ : Bool
  evoQ : Bool
  zetaQ : Bool
  gwsQ : Bool
  H_ref : ℝ
  sim_num : ℕ
  saveQ : Bool
  flush_freq : ℕ
  flush_freq_hom : ℕ
  superfolderQ : Bool
  superfolder : String
  scale : Bool
  fieldsQ : Bool
  discQ : String
  spectQ : Bool
  spect_gw_m : String
  distQ : Bool
  statsQ : Bool
  field_rho : Bool
  field_lpQ : Bool
  deSitterQ : Bool
  testQ : Bool
  m2_effQ : Bool
  csvQ : Bool
  max_reg : Option ℕ

/-- Literal attribute assignments of the chaotic-inflation preset
(src/models/chaotic.py, `Model.__init__` before the final `zetaQ`
normalization block). -/
noncomputable def chaoticInit : Model :=
  let mpl : ℝ := 1.0
  let MPl : ℝ := Real.sqrt (8 * Real.pi) * mpl
  let m : ℝ := 1e-6 * mpl
  let m2f1 : ℝ := m ^ 2
  let m2f2 : ℝ := 0.0
  let g2 : ℝ := 1e4 * m ^ 2
  let f10 : ℝ := 1.0093430384226378929425913902459
  let f20 : ℝ := 1e-16 * mpl
  let df1_dt0 : ℝ := -0.7137133070120812430962278466136 * m
  let df2_dt0 : ℝ := (10.0 : ℝ) ^ (-20 : ℤ)
  { model_name := "chaotic inflation"
    mpl := mpl
    MPl := MPl
    m := m
    m2f1 := m2f1
    m2f2 := m2f2
    m2_fields := [m2f1, m2f2]
    lamb := none
    g2 := g2
    f10 := f10
    f20 := some f20
    df1_dt0 := df1_dt0
    df2_dt0 := some df2_dt0
    fields0 := [f10, f20]
    pis0 := [df1_dt0, df2_dt0]
    q := some (g2 * f10 ^ 2 / (4 * m2f1))
    V_list := ["0.5*C1*f1**2", "0.5*C2*f2**2"]
    V_int := ["0.5*C3*f1**2*f2**2"]
    tmp_var := []
    C_coeff := [m2f1, m2f2, g2]
    D_coeff := []
    power_list := []
    rho_r0 := 0.0
    rho_m0 := 0.0
    dtau := 2 * 1.0 / (1024 * m)
    dtau_hom := 1.0 / (10000 * m)
    adaptQ := true
    L := 5.0 / m
    n := 64
    a_in := 1.0
    a_limit := 2
    t_in := 0.0
    t_fin := 256.0 / m
    t_fin_hom := 256.0 / m
    lin_evo := false
    homogenQ := false
    evoQ := true
    zetaQ := false
    gwsQ := true
    H_ref := 1e-12
    sim_num := 1
    saveQ := true
    flush_freq := 2 * 128
    flush_freq_hom := 128 * 8
    superfolderQ := false
    superfolder := "zeta_run_3"
    scale := false
    fieldsQ := true
    discQ := "defrost"
    spectQ := true
    spect_gw_m := "std"
    distQ := true
    statsQ := true
    field_rho := true
    field_lpQ := false
    deSitterQ := true
    testQ := false
    m2_effQ := true
    csvQ := true
    max_reg := none }

/-- Final normalization block of src/models/chaotic.py
(`if self.zetaQ == True:` at lines 197-210): when the
curvature-perturbation flag is set, post-processing flags are forced
off, batching and save flags are forced to the mode's values, and both
flush frequencies are overwritten. -/
def zetaNormalizeChaotic (M : Model) : Model :=
  if M.zetaQ = true then
    { M with
      evoQ := false
      spectQ := false
      distQ := false
      statsQ := false
      fieldsQ := false
      field_rho := false
      field_lpQ := false
      testQ := false
      m2_effQ := false
      flush_freq := 256 * 120 * 100000
      flush_freq_hom := 128 * 8
      superfolderQ := true
      saveQ := false }
  else M

/-- Fully constructed chaotic-inflation specification: the literal
assignments followed by the normalization block, as `Model.__init__`
executes them. -/
noncomputable def chaoticModel : Model :=
  zetaNormalizeChaotic chaoticInit

/-- Literal attribute assignments of the oscillon preset
(src/models/oscillon.py, `Model.__init__` before the final `zetaQ`
normalization block). -/
noncomputable def oscillonInit : Model :=
  let mpl : ℝ := 1.0
  let MPl : ℝ := Real.sqrt (8 * Real.pi) * mpl
  let m : ℝ := 5e-6 * mpl
  let m2f1 : ℝ := m ^ 2
  let m2f2 : ℝ := 0.0
  let lamb : ℝ := 2.8125e-6
  let g2 : ℝ := lamb ^ 2 / 0.1
  let f10 : ℝ := Real.sqrt ((3 * lamb) / (5 * g2)) * m
  let df1_dt0 : ℝ := 1e-16 * m
  { model_name := "oscillon"
    mpl := mpl
    MPl := MPl
    m := m
    m2f1 := m2f1
    m2f2 := m2f2
    m2_fields := [m2f1, m2f2]
    lamb := some lamb
    g2 := g2
    f10 := f10
    f20 := none
    df1_dt0 := df1_dt0
    df2_dt0 := none
    fields0 := [f10]
    pis0 := [df1_dt0]
    q := none
    V_list := ["0.5*C1*f1**2"]
    V_int := ["(-0.25*C2*f1**4)", "0.16666666666666666*C3*f1**6"]
    tmp_var := []
    C_coeff := [m2f1, lamb, g2 / m ^ 2]
    D_coeff := []
    power_list := []
    rho_r0 := 0.0
    rho_m0 := 0.0
    dtau := 0.005 / m
    dtau_hom := 1.0 / (10000 * m)
    adaptQ := false
    L := 400.0 / m
    n := 128
    a_in := 1.0
    a_limit := 2
    t_in := 0.0
    t_fin := 5000.0 / m
    t_fin_hom := 5000.0 / m
    lin_evo := false
    homogenQ := false
    evoQ := true
    zetaQ := false
    gwsQ := false
    H_ref := 1e-12
    sim_num := 1
    saveQ := true
    flush_freq := 4 * 1024
    flush_freq_hom := 128 * 20
    superfolderQ := false
    superfolder := "zeta_run_1"
    scale := false
    fieldsQ := true
    discQ := "defrost"
    spectQ := true
    spect_gw_m := "std"
    distQ := true
    statsQ := true
    field_rho := true
    field_lpQ := false
    deSitterQ := false
    testQ := false
    m2_effQ := false
    csvQ := true
    max_reg := none }

/-- Final normalization block of src/models/oscillon.py
(`if self.zetaQ == True:` at lines 192-204).  Identical to the chaotic
block except that it leaves `flush_freq_hom` untouched. -/
def zetaNormalizeOscillon (M : Model) : Model :=
  if M.zetaQ = true then
    { M with
      evoQ := false
      spectQ := false
      distQ := false
      statsQ := false
      fieldsQ := false
      field_rho := false
      field_lpQ := false
      testQ := false
      m2_effQ := false
      flush_freq := 256 * 120 * 100000
      superfolderQ := true
      saveQ := false }
  else M

/-- Fully constructed oscillon specification: the literal assignments
followed by the normalization block, as `Model.__init__` executes
them. -/
noncomputable def oscillonModel : Model :=
  zetaNormalizeOscillon oscillonInit

/-- Construction of the chaotic preset viewed as a call: `Model()` takes
no arguments, so a call is a function of the trivial argument. -/
noncomputable def mkChaotic : Unit → Model :=
  fun _ => zetaNormalizeChaotic chaoticInit

/-- Construction of the oscillon preset viewed as a call. -/
noncomputable def mkOscillon : Unit → Model :=
  fun _ => zetaNormalizeOscillon oscillonInit

/-- Modelled from the spec: error taxonomy of the construction-time
validation (spec sections 4.1 and 7).  The reference `Model.__init__`
performs no validation, so these conditions exist only in the spec. -/
inductive SpecError where
  | InvalidLatticeSize : SpecError
  | CoefficientArityMismatch : SpecError
  | NonPositiveTimeParameter : SpecError
  | InconsistentFieldArity : SpecError
deriving DecidableEq

/-- Modelled from the spec: the explicit configuration object of spec
section 4.1 restricted to the fields the validation rules inspect.
Numeric fields are rationals (the preset literals relevant to validation
are all decimal). -/
structure Config where
  fields0 : List ℚ
  pis0 : List ℚ
  m2_fields : List ℚ
  V_list : List String
  V_int : List String
  C_coeff : List ℚ
  dtau : ℚ
  dtau_hom : ℚ
  t_fin : ℚ
  t_fin_hom : ℚ
  n : ℕ
deriving DecidableEq

/-- Power-of-two test on the lattice point count: positive and with a
single set bit. -/
def isPow2 (k : ℕ) : Bool := decide (0 < k) && (k &&& (k - 1) == 0)

/-- Modelled from the spec: construction-time validation absent from the
reference code.  Checks, in the order the failure conditions are listed
in spec section 7: the lattice point count is a power of two, the number
of distinct coefficient placeholders equals the coefficient-list length,
all step sizes and end times are strictly positive, and the per-field
lists have equal lengths.  (Spec section 4.1 also asks that mass-squared
values be non-negative, but section 7 names no error for that case, so
it is not modelled here; no claim depends on it.) -/
def validate (c : Config) : Except SpecError Config :=
  if isPow2 c.n = false then Except.error SpecError.InvalidLatticeSize
  else if (distinctPlaceholders (c.V_list ++ c.V_int)).length ≠ c.C_coeff.length then
    Except.error SpecError.CoefficientArityMismatch
  else if c.dtau ≤ 0 ∨ c.dtau_hom ≤ 0 ∨ c.t_fin ≤ 0 ∨ c.t_fin_hom ≤ 0 then
    Except.error SpecError.NonPositiveTimeParameter
  else if c.fields0.length ≠ c.pis0.length ∨ c.pis0.length ≠ c.m2_fields.length then
    Except.error SpecError.InconsistentFieldArity
  else Except.ok c

/-- Modelled from the spec: the chaotic-inflation preset rendered as the
section 4.1 configuration object (rational rendering of the literal
values of src/models/chaotic.py that the validation rules inspect). -/
def chaoticConfig : Config :=
  let mpl : ℚ := 1.0
  let m : ℚ := 1e-6 * mpl
  let m2f1 : ℚ := m ^ 2
  let m2f2 : ℚ := 0.0
  let g2 : ℚ := 1e4 * m ^ 2
  { fields0 := [1.0093430384226378929425913902459, 1e-16 * mpl]
    pis0 := [-0.7137133070120812430962278466136 * m, 1e-20]
    m2_fields := [m2f1, m2f2]
    V_list := ["0.5*C1*f1**2", "0.5*C2*f2**2"]
    V_int := ["0.5*C3*f1**2*f2**2"]
    C_coeff := [m2f1, m2f2, g2]
    dtau := 2 * 1.0 / (1024 * m)
    dtau_hom := 1.0 / (10000 * m)
    t_fin := 256.0 / m
    t_fin_hom := 256.0 / m
    n := 64 }

/-- Validation returns `NonPositiveTimeParameter` whenever the lattice
and arity checks pass and some time parameter is non-positive. -/
theorem validate_nonpositive_time (c : Config)
    (hn : isPow2 c.n = true)
    (ha : (distinctPlaceholders (c.V_list ++ c.V_int)).length = c.C_coeff.length)
    (ht : c.dtau ≤ 0 ∨ c.dtau_hom ≤ 0 ∨ c.t_fin ≤ 0 ∨ c.t_fin_hom ≤ 0) :
    validate c = Except.error SpecError.NonPositiveTimeParameter := by
  unfold validate
  rw [if_neg (by simp [hn]), if_neg (by simp [ha]), if_pos ht]

/-- Validation succeeds when every check passes. -/
theorem validate_ok (c : Config)
    (hn : isPow2 c.n = true)
    (ha : (distinctPlaceholders (c.V_list ++ c.V_int)).length = c.C_coeff.length)
    (ht1 : 0 < c.dtau) (ht2 : 0 < c.dtau_hom) (ht3 : 0 < c.t_fin) (ht4 : 0 < c.t_fin_hom)
    (hf1 : c.fields0.length = c.pis0.length) (hf2 : c.pis0.length = c.m2_fields.length) :
    validate c = Except.ok c := by
  unfold validate
  rw [if_neg (by simp [hn]), if_neg (by simp [ha]),
    if_neg (by simp [not_or, not_le]; exact ⟨ht1, ht2, ht3, ht4⟩), if_neg (by simp [hf1, hf2])]

/-- C1: if the curvature-perturbation flag `zetaQ` is true at the point
the normalization rule runs, then after either preset's normalization
block the flags `evoQ`, `spectQ`, `distQ`, `statsQ`, `field_rho`,
`field_lpQ`, `testQ` and `m2_effQ` are all false, `superfolderQ` is
true, `saveQ` is false, and `flush_freq` equals `256*120*100000`,
regardless of the values those flags held before normalization. -/
theorem C1_zeta_mode_forces_flags (M : Model) (h : M.zetaQ = true) :
    ((zetaNormalizeChaotic M).evoQ = false ∧
     (zetaNormalizeChaotic M).spectQ = false ∧
     (zetaNormalizeChaotic M).distQ = false ∧
     (zetaNormalizeChaotic M).statsQ = false ∧
     (zetaNormalizeChaotic M).field_rho = false ∧
     (zetaNormalizeChaotic M).field_lpQ = false ∧
     (zetaNormalizeChaotic M).testQ = false ∧
     (zetaNormalizeChaotic M).m2_effQ = false ∧
     (zetaNormalizeChaotic M).superfolderQ = true ∧
     (zetaNormalizeChaotic M).saveQ = false ∧
     (zetaNormalizeChaotic M).flush_freq = 256 * 120 * 100000) ∧
    ((zetaNormalizeOscillon M).evoQ = false ∧
     (zetaNormalizeOscillon M).spectQ = false ∧
     (zetaNormalizeOscillon M).distQ = false ∧
     (zetaNormalizeOscillon M).statsQ = false ∧
     (zetaNormalizeOscillon M).field_rho = false ∧
     (zetaNormalizeOscillon M).field_lpQ = false ∧
     (zetaNormalizeOscillon M).testQ = false ∧
     (zetaNormalizeOscillon M).m2_effQ = false ∧
     (zetaNormalizeOscillon M).superfolderQ = true ∧
     (zetaNormalizeOscillon M).saveQ = false ∧
     (zetaNormalizeOscillon M).flush_freq = 256 * 120 * 100000) := by
  simp [zetaNormalizeChaotic, zetaNormalizeOscillon, h]

/-- C1 witness: the chaotic literal assignments with `zetaQ` set satisfy
the hypothesis, and the normalized flags come out as stated. -/
theorem C1_zeta_mode_forces_flags_witness :
    ({ chaoticInit with zetaQ := true } : Model).zetaQ = true ∧
    (((zetaNormalizeChaotic { chaoticInit with zetaQ := true }).evoQ = false ∧
      (zetaNormalizeChaotic { chaoticInit with zetaQ := true }).spectQ = false ∧
      (zetaNormalizeChaotic { chaoticInit with zetaQ := true }).distQ = false ∧
      (zetaNormalizeChaotic { chaoticInit with zetaQ := true }).statsQ = false ∧
      (zetaNormalizeChaotic { chaoticInit with zetaQ := true }).field_rho = false ∧
      (zetaNormalizeChaotic { chaoticInit with zetaQ := true }).field_lpQ = false ∧
      (zetaNormalizeChaotic { chaoticInit with zetaQ := true }).testQ = false ∧
      (zetaNormalizeChaotic { chaoticInit with zetaQ := true }).m2_effQ = false ∧
      (zetaNormalizeChaotic { chaoticInit with zetaQ := true }).superfolderQ = true ∧
      (zetaNormalizeChaotic { chaoticInit with zetaQ := true }).saveQ = false ∧
      (zetaNormalizeChaotic { chaoticInit with zetaQ := true }).flush_freq = 256 * 120 * 100000) ∧
     ((zetaNormalizeOscillon { chaoticInit with zetaQ := true }).evoQ = false ∧
      (zetaNormalizeOscillon { chaoticInit with zetaQ := true }).spectQ = false ∧
      (zetaNormalizeOscillon { chaoticInit with zetaQ := true }).distQ = false ∧
      (zetaNormalizeOscillon { chaoticInit with zetaQ := true }).statsQ = false ∧
      (zetaNormalizeOscillon { chaoticInit with zetaQ := true }).field_rho = false ∧
      (zetaNormalizeOscillon { chaoticInit with zetaQ := true }).field_lpQ = false ∧
      (zetaNormalizeOscillon { chaoticInit with zetaQ := true }).testQ = false ∧
      (zetaNormalizeOscillon { chaoticInit with zetaQ := true }).m2_effQ = false ∧
      (zetaNormalizeOscillon { chaoticInit with zetaQ := true }).superfolderQ = true ∧
      (zetaNormalizeOscillon { chaoticInit with zetaQ := true }).saveQ = false ∧
      (zetaNormalizeOscillon { chaoticInit with zetaQ := true }).flush_freq
        = 256 * 120 * 100000)) :=
  ⟨rfl, C1_zeta_mode_forces_flags { chaoticInit with zetaQ := true } rfl⟩

/-- C2 counterexample: the claim that `fields0`, `pis0` and `m2_fields`
have equal lengths in every constructed specification fails on the
oscillon preset, whose `fields0` and `pis0` have length 1 while
`m2_fields` has length 2. -/
theorem C2_counterexample_oscillon_lengths :
    ¬ (oscillonModel.fields0.length = oscillonModel.pis0.length ∧
       oscillonModel.pis0.length = oscillonModel.m2_fields.length) := by
  decide

/-- C2 (amended): after construction, `fields0` and `pis0` have equal
lengths in both presets; in the chaotic preset `m2_fields` shares that
length, while in the oscillon preset `fields0` and `pis0` have length 1
but `m2_fields` has length 2. -/
theorem C2_field_list_lengths_amended :
    (chaoticModel.fields0.length = chaoticModel.pis0.length ∧
     chaoticModel.pis0.length = chaoticModel.m2_fields.length) ∧
    (oscillonModel.fields0.length = oscillonModel.pis0.length ∧
     oscillonModel.fields0.length = 1 ∧
     oscillonModel.m2_fields.length = 2) :=
  ⟨⟨rfl, rfl⟩, rfl, rfl, rfl⟩

/-- C3: under the spec-modelled validation (the reference code checks
nothing), a configuration whose lattice point count is 100 fails with
`InvalidLatticeSize`, while point counts 64 and 128 pass validation. -/
theorem C3_lattice_size_validation :
    validate { chaoticConfig with n := 100 } = Except.error SpecError.InvalidLatticeSize ∧
    chaoticConfig.n = 64 ∧
    validate chaoticConfig = Except.ok chaoticConfig ∧
    validate { chaoticConfig with n := 128 } = Except.ok { chaoticConfig with n := 128 } :=
  ⟨rfl, rfl,
    validate_ok _ rfl rfl (by norm_num [chaoticConfig]) (by norm_num [chaoticConfig])
      (by norm_num [chaoticConfig]) (by norm_num [chaoticConfig]) rfl rfl,
    validate_ok _ (show isPow2 (128 : ℕ) = true from rfl) rfl (by norm_num [chaoticConfig])
      (by norm_num [chaoticConfig]) (by norm_num [chaoticConfig]) (by norm_num [chaoticConfig])
      rfl rfl⟩

/-- C4: in both constructed presets, the number of distinct coefficient
placeholders `C1, C2, ...` referenced across `V_list` and `V_int`
equals the length of the numeric coefficient list `C_coeff`. -/
theorem C4_coefficient_placeholder_arity :
    (distinctPlaceholders (chaoticModel.V_list ++ chaoticModel.V_int)).length
        = chaoticModel.C_coeff.length ∧
    (distinctPlaceholders (oscillonModel.V_list ++ oscillonModel.V_int)).length
        = oscillonModel.C_coeff.length := by
  constructor <;> decide

/-- C5: the chaotic-inflation preset has exactly two fields, mass unit
`m = 1e-6 * mpl`, resonance parameter `q = g2 * f10^2 / (4 * m2f1)`
which is positive, and `C_coeff = [m2f1, m2f2, g2]` in that order. -/
theorem C5_chaotic_preset_values :
    chaoticModel.fields0.length = 2 ∧
    chaoticModel.m = 1e-6 * chaoticModel.mpl ∧
    chaoticModel.q = some (chaoticModel.g2 * chaoticModel.f10 ^ 2 / (4 * chaoticModel.m2f1)) ∧
    0 < chaoticModel.g2 * chaoticModel.f10 ^ 2 / (4 * chaoticModel.m2f1) ∧
    chaoticModel.C_coeff = [chaoticModel.m2f1, chaoticModel.m2f2, chaoticModel.g2] := by
  refine ⟨rfl, rfl, rfl, ?_, rfl⟩
  have hg : chaoticModel.g2 = 1e4 * ((1e-6 : ℝ) * 1.0) ^ 2 := rfl
  have hf : chaoticModel.f10 = (1.0093430384226378929425913902459 : ℝ) := rfl
  have hm : chaoticModel.m2f1 = ((1e-6 : ℝ) * 1.0) ^ 2 := rfl
  rw [hg, hf, hm]
  positivity

/-- C6: the oscillon preset has exactly one field, its initial field
value is `sqrt(3*lamb/(5*g2)) * m` with `lamb` the literal `2.8125e-6`
and `g2` derived as `lamb^2/0.1`, and `V_int` has exactly two entries
whose coefficient placeholders are `C2` and `C3` respectively. -/
theorem C6_oscillon_preset_values :
    oscillonModel.fields0.length = 1 ∧
    oscillonModel.lamb = some (2.8125e-6 : ℝ) ∧
    oscillonModel.g2 = (2.8125e-6 : ℝ) ^ 2 / 0.1 ∧
    oscillonModel.f10
      = Real.sqrt (3 * (2.8125e-6 : ℝ) / (5 * oscillonModel.g2)) * oscillonModel.m ∧
    oscillonModel.V_int.map placeholders = [[2], [3]] := by
  refine ⟨rfl, rfl, rfl, rfl, ?_⟩
  decide

/-- C7 counterexample: the claim that every constructed specification
contains the derived ratio `q`, in particular the oscillon preset's,
fails: the oscillon preset never assigns `q`. -/
theorem C7_counterexample_oscillon_q : oscillonModel.q = none := rfl

/-- C7 (amended): the chaotic preset's specification contains the
derived ratio `q = g2 * f10^2 / (4 * m2f1)`; the oscillon preset's
specification contains no `q` at all. -/
theorem C7_resonance_ratio_amended :
    chaoticModel.q = some (chaoticModel.g2 * chaoticModel.f10 ^ 2 / (4 * chaoticModel.m2f1)) ∧
    oscillonModel.q = none :=
  ⟨rfl, rfl⟩

/-- C8: under the spec-modelled validation (the reference code checks
nothing), a configuration with a non-positive time step, or a
non-positive end time, fails with `NonPositiveTimeParameter`. -/
theorem C8_nonpositive_time_validation :
    (∀ x : ℚ, x ≤ 0 → validate { chaoticConfig with dtau := x }
        = Except.error SpecError.NonPositiveTimeParameter) ∧
    (∀ x : ℚ, x ≤ 0 → validate { chaoticConfig with t_fin := x }
        = Except.error SpecError.NonPositiveTimeParameter) :=
  ⟨fun _ hx => validate_nonpositive_time _ (show isPow2 chaoticConfig.n = true from rfl) rfl
      (Or.inl hx),
   fun _ hx => validate_nonpositive_time _ (show isPow2 chaoticConfig.n = true from rfl) rfl
      (Or.inr (Or.inr (Or.inl hx)))⟩

/-- C8 witness: `dtau = 0` is non-positive and is rejected with
`NonPositiveTimeParameter`. -/
theorem C8_nonpositive_time_validation_witness :
    (0 : ℚ) ≤ 0 ∧ validate { chaoticConfig with dtau := (0 : ℚ) }
        = Except.error SpecError.NonPositiveTimeParameter :=
  ⟨le_refl 0, C8_nonpositive_time_validation.1 0 (le_refl 0)⟩

/-- C9: when `zetaQ` is true, either preset's normalization block also
forces the `fieldsQ` flag (save field data to Silo files) to false, a
flag absent from the spec's list of flags disabled by that mode. -/
theorem C9_zeta_mode_forces_fieldsQ (M : Model) (h : M.zetaQ = true) :
    (zetaNormalizeChaotic M).fieldsQ = false ∧
    (zetaNormalizeOscillon M).fieldsQ = false := by
  simp [zetaNormalizeChaotic, zetaNormalizeOscillon, h]

/-- C9 witness: the oscillon literal assignments with `zetaQ` set
satisfy the hypothesis, and `fieldsQ` comes out false. -/
theorem C9_zeta_mode_forces_fieldsQ_witness :
    ({ oscillonInit with zetaQ := true } : Model).zetaQ = true ∧
    ((zetaNormalizeChaotic { oscillonInit with zetaQ := true }).fieldsQ = false ∧
     (zetaNormalizeOscillon { oscillonInit with zetaQ := true }).fieldsQ = false) :=
  ⟨rfl, C9_zeta_mode_forces_fieldsQ { oscillonInit with zetaQ := true } rfl⟩

/-- C10: construction is deterministic and side-effect free: the
embedding of `Model.__init__` is a pure function, so any two calls for
the same preset yield records whose every field is equal. -/
theorem C10_construction_deterministic :
    (∀ u v : Unit, mkChaotic u = mkChaotic v) ∧
    (∀ u v : Unit, mkOscillon u = mkOscillon v) :=
  ⟨fun _ _ => rfl, fun _ _ => rfl⟩
